import Mathlib

/-!
Shallow embedding of the Crosswalk embedder-layer fragment:
the `XWalkContentsClient` event relay
(`src/test/.../ExtensionBroadcastInternal.java`, embedded document
`XWalkContentsClient.java`), the echo/broadcast test extensions
(`ExtensionEchoInternal.java`, `ExtensionBroadcastInternal.java`), and
`XWalkContentBrowserClient` (`src/runtime/browser/xwalk_content_browser_client.cc`).

Platform-conditional compilation (`#if defined(OS_ANDROID)`) is embedded as an
explicit `os_android : Bool` argument where both branches exist in the source.
Engine-provided collaborators (the contents-client bridge registry, the Android
cookie policy, the application service, the error-code conversion helper) are
passed in as function arguments, since their code lives in the host engine and
not in this fragment; the fragment's own control flow around them is embedded
verbatim.
-/

namespace Crosswalk

/-- A URL, reduced to the two components this fragment inspects
(`GURL::SchemeIs` and `GURL::host`). -/
structure GURL where
  scheme : String
  host : String
deriving DecidableEq, Repr

/-- GURL.SchemeIs: scheme comparison (schemes are stored canonicalized, so
plain equality embeds the comparison). -/
def GURL.SchemeIs (u : GURL) (s : String) : Bool :=
  u.scheme == s

/-- Value of `org.chromium.net.NetError.ERR_ABORTED`, the generated Java mirror
of Chromium's `net::ERR_ABORTED` (-3). The constant belongs to the host engine,
not to this fragment; only its identity is compared against. -/
def NetError.ERR_ABORTED : Int := -3

/-- Value of `xwalk::application::kApplicationScheme` from
`xwalk/application/common/constants`, which is outside this fragment. The
claims about it are independent of the concrete value. -/
def application.kApplicationScheme : String := "app"

/-! ## XWalkContentsClient / XWalkWebContentsObserver -/

/-- The engine events whose handling the relay defines:
`ContentViewClient.onUpdateTitle` plus the four `WebContentsObserverAndroid`
overrides of `XWalkWebContentsObserver`. -/
inductive EngineEvent where
  | onUpdateTitle (title : String)
  | didStopLoading (url : String)
  | didFailLoad (isProvisionalLoad : Bool) (isMainFrame : Bool) (errorCode : Int)
      (description : String) (failingUrl : String)
  | didNavigateAnyFrame (url : String) (baseUrl : String) (isReload : Bool)
  | didFinishLoad (frameId : Int) (validatedUrl : String) (isMainFrame : Bool)
deriving DecidableEq, Repr

/-- The embedder-defined abstract callbacks those handlers invoke. -/
inductive EmbedderCallback where
  | onTitleChanged (title : String)
  | onPageFinished (url : String)
  | onReceivedError (errorCode : Int) (description : String) (failingUrl : String)
  | doUpdateVisitedHistory (url : String) (isReload : Bool)
deriving DecidableEq, Repr

/-- XWalkContentsClient.dispatch: the list of embedder callbacks one engine
event produces. `convertErrorCode` stands for
`ErrorCodeConversionHelper.convertErrorCode`, a helper of the host layer that
is outside this fragment.

Source: `onUpdateTitle` calls `onTitleChanged(title)`; in
`XWalkWebContentsObserver`, `didStopLoading` calls `onPageFinished(url)`;
`didFailLoad` returns without any callback when
`errorCode == NetError.ERR_ABORTED || !isMainFrame`, and otherwise calls
`onReceivedError(convertErrorCode(errorCode), description, failingUrl)`;
`didNavigateAnyFrame` calls `doUpdateVisitedHistory(url, isReload)`;
`didFinishLoad` has an empty body. -/
def XWalkContentsClient.dispatch (convertErrorCode : Int → Int) :
    EngineEvent → List EmbedderCallback
  | .onUpdateTitle title => [.onTitleChanged title]
  | .didStopLoading url => [.onPageFinished url]
  | .didFailLoad _ isMainFrame errorCode description failingUrl =>
      if errorCode == NetError.ERR_ABORTED || !isMainFrame then
        []
      else
        [.onReceivedError (convertErrorCode errorCode) description failingUrl]
  | .didNavigateAnyFrame url _ isReload => [.doUpdateVisitedHistory url isReload]
  | .didFinishLoad _ _ _ => []

/-! ## Echo / broadcast test extensions -/

/-- The messaging primitives of `XWalkExtensionAndroid` that the two test
extensions call; an extension handler's observable effect is the list of these
it performs. -/
inductive ExtensionAction where
  | postMessage (instanceID : Int) (message : String)
  | broadcastMessage (message : String)
deriving DecidableEq, Repr

/-- ExtensionEchoInternal.handleMessage:
`postMessage(instanceID, "From java:" + message)`. -/
def ExtensionEchoInternal.handleMessage (instanceID : Int) (message : String) :
    List ExtensionAction :=
  [.postMessage instanceID ("From java:" ++ message)]

/-- ExtensionEchoInternal.handleSyncMessage:
`return "From java sync:" + message;`. -/
def ExtensionEchoInternal.handleSyncMessage (_instanceID : Int) (message : String) :
    String :=
  "From java sync:" ++ message

/-- ExtensionBroadcastInternal.handleMessage:
`broadcastMessage("From java broadcast:" + message)`. -/
def ExtensionBroadcastInternal.handleMessage (_instanceID : Int) (message : String) :
    List ExtensionAction :=
  [.broadcastMessage ("From java broadcast:" ++ message)]

/-- ExtensionBroadcastInternal.handleSyncMessage:
`return "From java:" + message;`. -/
def ExtensionBroadcastInternal.handleSyncMessage (_instanceID : Int) (message : String) :
    String :=
  "From java:" ++ message

/-! ## XWalkContentBrowserClient hooks -/

/-- content::CertificateRequestResultType (the values this fragment uses). -/
inductive CertificateRequestResultType where
  | CERTIFICATE_REQUEST_RESULT_TYPE_CONTINUE
  | CERTIFICATE_REQUEST_RESULT_TYPE_CANCEL
  | CERTIFICATE_REQUEST_RESULT_TYPE_DENY
deriving DecidableEq, Repr

/-- An `XWalkContentsClientBridgeBase` as seen by `AllowCertificateError`: the
bridge's `AllowCertificateError(cert_error, cert, request_url, callback,
&cancel_request)` lives in the Android layer outside this fragment, so it is
abstracted by the value it leaves in `cancel_request` as a function of the
inputs this fragment hands it. -/
structure XWalkContentsClientBridgeBase where
  cancelRequest : Int → GURL → Bool

/-- XWalkContentBrowserClient::AllowCertificateError. `fromRenderFrameID`
stands for the registry lookup
`XWalkContentsClientBridgeBase::FromRenderFrameID`. On Android:
`cancel_request` starts `true`; a registered client may overwrite it; if it
ends up `true`, `*result` is set to `CERTIFICATE_REQUEST_RESULT_TYPE_DENY`,
otherwise `*result` keeps the caller's value. On other platforms the body is
empty and `*result` is untouched. The function returns the final `*result`. -/
def XWalkContentBrowserClient.AllowCertificateError
    (os_android : Bool)
    (fromRenderFrameID : Int → Int → Option XWalkContentsClientBridgeBase)
    (render_process_id render_frame_id : Int)
    (cert_error : Int) (request_url : GURL)
    (result : CertificateRequestResultType) : CertificateRequestResultType :=
  if os_android then
    let client := fromRenderFrameID render_process_id render_frame_id
    let cancel_request :=
      match client with
      | none => true
      | some c => c.cancelRequest cert_error request_url
    if cancel_request then
      CertificateRequestResultType.CERTIFICATE_REQUEST_RESULT_TYPE_DENY
    else
      result
  else
    result

/-- An `xwalk::application::Application` as seen by `CanCreateWindow`: only
its `CanRequestURL` predicate is consulted; that method lives in the
application layer outside this fragment. -/
structure Application where
  canRequestURL : GURL → Bool

/-- The two outputs of `CanCreateWindow`: its `bool` return value and the
value stored through `bool* no_javascript_access`. -/
structure CanCreateWindowResult where
  allowed : Bool
  no_javascript_access : Bool
deriving DecidableEq, Repr

/-- XWalkContentBrowserClient::CanCreateWindow (compiled only when
`!defined(OS_ANDROID)`). `getApplicationByRenderHostID` stands for
`app_system()->application_service()->GetApplicationByRenderHostID`.
Source: sets `*no_javascript_access = false`; returns `true` if no application
owns the render process; otherwise returns `app->CanRequestURL(target_url)`
(logging, and on Tizen `platform_util::OpenExternal`, have no effect on the
outputs). Arguments the body never reads are kept as opaque `Int`/`Bool`
handles. -/
def XWalkContentBrowserClient.CanCreateWindow
    (getApplicationByRenderHostID : Int → Option Application)
    (opener_url opener_top_level_frame_url source_origin : GURL)
    (container_type : Int) (target_url : GURL) (referrer : Int)
    (disposition : Int) (features : Int)
    (user_gesture opener_suppressed : Bool) (context : Int)
    (render_process_id : Int) (is_guest : Bool) (opener_id : Int) :
    CanCreateWindowResult :=
  let no_javascript_access := false
  match getApplicationByRenderHostID render_process_id with
  | none => ⟨true, no_javascript_access⟩
  | some app =>
      if app.canRequestURL target_url then
        ⟨true, no_javascript_access⟩
      else
        ⟨false, no_javascript_access⟩

/-- XWalkContentBrowserClient::AllowGetCookie. `androidPolicy` stands for
`XWalkCookieAccessPolicy::GetInstance()->AllowGetCookie`, which lives in the
Android layer outside this fragment; on non-Android the source is
`return true;`. The cookie list is embedded as a list of opaque cookies and
the resource context as an opaque handle. -/
def XWalkContentBrowserClient.AllowGetCookie
    (os_android : Bool)
    (androidPolicy : GURL → GURL → List String → Int → Int → Int → Bool)
    (url first_party : GURL) (cookie_list : List String)
    (context : Int) (render_process_id render_frame_id : Int) : Bool :=
  if os_android then
    androidPolicy url first_party cookie_list context render_process_id render_frame_id
  else
    true

/-- XWalkContentBrowserClient::AllowSetCookie. `androidPolicy` stands for
`XWalkCookieAccessPolicy::GetInstance()->AllowSetCookie`; on non-Android the
source is `return true;`. The `net::CookieOptions*` is an opaque handle. -/
def XWalkContentBrowserClient.AllowSetCookie
    (os_android : Bool)
    (androidPolicy : GURL → GURL → String → Int → Int → Int → Int → Bool)
    (url first_party : GURL) (cookie_line : String)
    (context : Int) (render_process_id render_frame_id : Int)
    (options : Int) : Bool :=
  if os_android then
    androidPolicy url first_party cookie_line context render_process_id
      render_frame_id options
  else
    true

/-- blink::WebNotificationPresenter::Permission (the values this fragment
uses). -/
inductive WebNotificationPermission where
  | PermissionAllowed
  | PermissionNotAllowed
deriving DecidableEq, Repr

/-- XWalkContentBrowserClient::CheckDesktopNotificationPermission:
`PermissionAllowed` under `OS_ANDROID`, `PermissionNotAllowed` otherwise; the
arguments are never read. -/
def XWalkContentBrowserClient.CheckDesktopNotificationPermission
    (os_android : Bool) (source_url : GURL) (context : Int)
    (render_process_id : Int) : WebNotificationPermission :=
  if os_android then
    WebNotificationPermission.PermissionAllowed
  else
    WebNotificationPermission.PermissionNotAllowed

/-- The three outputs of `GetStoragePartitionConfigForSite`
(`*partition_domain`, `*partition_name`, `*in_memory`). -/
structure StoragePartitionConfig where
  partition_domain : String
  partition_name : String
  in_memory : Bool
deriving DecidableEq, Repr

/-- XWalkContentBrowserClient::GetStoragePartitionConfigForSite:
sets `*in_memory = false`, clears both strings, then on non-Android sets
`*partition_domain = site.host()` when
`site.SchemeIs(application::kApplicationScheme)`. -/
def XWalkContentBrowserClient.GetStoragePartitionConfigForSite
    (os_android : Bool) (browser_context : Int) (site : GURL)
    (can_be_default : Bool) : StoragePartitionConfig :=
  let base : StoragePartitionConfig := ⟨"", "", false⟩
  if !os_android && site.SchemeIs application.kApplicationScheme then
    { base with partition_domain := site.host }
  else
    base

/-! ## XWalkContentBrowserClient singleton lifecycle -/

/-- The process state the singleton protocol lives in: the identities of the
currently constructed `XWalkContentBrowserClient` objects and the value of the
file-scope pointer `g_browser_client` (which `Get()` returns). -/
structure BrowserClientWorld where
  live : List Nat
  g_browser_client : Option Nat
deriving DecidableEq, Repr

/-- XWalkContentBrowserClient::Get: `return g_browser_client;`. -/
def XWalkContentBrowserClient.Get (w : BrowserClientWorld) : Option Nat :=
  w.g_browser_client

/-- The two lifecycle transitions. The constructor runs
`DCHECK(!g_browser_client); g_browser_client = this;` — so it fires only from
a state where `g_browser_client` is null — and the destructor runs
`DCHECK(g_browser_client); g_browser_client = NULL;` on a live instance. -/
inductive BrowserClientStep : BrowserClientWorld → BrowserClientWorld → Prop where
  | construct (w : BrowserClientWorld) (id : Nat)
      (hdcheck : w.g_browser_client = none) :
      BrowserClientStep w ⟨id :: w.live, some id⟩
  | destroy (w : BrowserClientWorld) (id : Nat)
      (hlive : id ∈ w.live) (hdcheck : w.g_browser_client ≠ none) :
      BrowserClientStep w ⟨w.live.erase id, none⟩

/-- States reachable from process start (no instance, null pointer). -/
inductive BrowserClientReachable : BrowserClientWorld → Prop where
  | init : BrowserClientReachable ⟨[], none⟩
  | step {w w' : BrowserClientWorld} :
      BrowserClientReachable w → BrowserClientStep w w' →
      BrowserClientReachable w'

/-- The singleton invariant: either no instance exists and `Get()` returns
null, or exactly one instance exists and `Get()` returns it. -/
def singletonInvariant (w : BrowserClientWorld) : Prop :=
  (w.live = [] ∧ XWalkContentBrowserClient.Get w = none) ∨
  (∃ id, w.live = [id] ∧ XWalkContentBrowserClient.Get w = some id)

/-! ## Theorems -/

/-- Claim C1, counterexample: a `didFailLoad` event for a sub-frame
(`isMainFrame = false`, error code -2) produces no embedder callback at all —
in particular no `onReceivedError` — contradicting the claim that every
`didFailLoad`, for every error code and every frame, reaches
`onReceivedError`. -/
theorem didFailLoad_subframe_drops_error :
    XWalkContentsClient.dispatch (fun ec => ec)
      (EngineEvent.didFailLoad false false (-2) "net error" "http://a.test/") = [] := by
  rfl

/-- Claim C1, amended: `onUpdateTitle`, `didStopLoading` and
`didNavigateAnyFrame` are each forwarded to their embedder callback, and a
`didFailLoad` event results in an `onReceivedError` callback exactly when it
is for the main frame and its error code is not `NetError.ERR_ABORTED`;
otherwise `didFailLoad` is silently dropped. -/
theorem xwalk_contents_client_forwarding (convert : Int → Int)
    (title url baseUrl description failingUrl : String)
    (isReload isProvisionalLoad isMainFrame : Bool) (errorCode : Int) :
    XWalkContentsClient.dispatch convert (EngineEvent.onUpdateTitle title) =
      [EmbedderCallback.onTitleChanged title] ∧
    XWalkContentsClient.dispatch convert (EngineEvent.didStopLoading url) =
      [EmbedderCallback.onPageFinished url] ∧
    XWalkContentsClient.dispatch convert
        (EngineEvent.didNavigateAnyFrame url baseUrl isReload) =
      [EmbedderCallback.doUpdateVisitedHistory url isReload] ∧
    XWalkContentsClient.dispatch convert
        (EngineEvent.didFailLoad isProvisionalLoad isMainFrame errorCode
          description failingUrl) =
      (if isMainFrame ∧ errorCode ≠ NetError.ERR_ABORTED then
        [EmbedderCallback.onReceivedError (convert errorCode) description failingUrl]
      else []) := by
  refine ⟨rfl, rfl, rfl, ?_⟩
  cases isMainFrame <;>
    by_cases h : errorCode = NetError.ERR_ABORTED <;>
      simp [XWalkContentsClient.dispatch, h]

/-- Claim C2: on Android, when no `XWalkContentsClientBridgeBase` is
registered for the given render process id and render frame id,
`AllowCertificateError` sets `*result` to
`CERTIFICATE_REQUEST_RESULT_TYPE_DENY`, whatever its other inputs were. -/
theorem allowCertificateError_no_bridge_denies
    (fromRenderFrameID : Int → Int → Option XWalkContentsClientBridgeBase)
    (render_process_id render_frame_id cert_error : Int) (request_url : GURL)
    (result : CertificateRequestResultType)
    (h : fromRenderFrameID render_process_id render_frame_id = none) :
    XWalkContentBrowserClient.AllowCertificateError true fromRenderFrameID
        render_process_id render_frame_id cert_error request_url result =
      CertificateRequestResultType.CERTIFICATE_REQUEST_RESULT_TYPE_DENY := by
  simp [XWalkContentBrowserClient.AllowCertificateError, h]

/-- Witness for claim C2 at a concrete input: an empty bridge registry, so the
lookup returns `none`, and an incoming result of CONTINUE that is overwritten
to DENY. -/
theorem allowCertificateError_no_bridge_denies_witness :
    (fun _ _ => (none : Option XWalkContentsClientBridgeBase)) 1 2 = none ∧
    XWalkContentBrowserClient.AllowCertificateError true (fun _ _ => none)
        1 2 (-200) ⟨"https", "example.test"⟩
        CertificateRequestResultType.CERTIFICATE_REQUEST_RESULT_TYPE_CONTINUE =
      CertificateRequestResultType.CERTIFICATE_REQUEST_RESULT_TYPE_DENY :=
  ⟨rfl, allowCertificateError_no_bridge_denies (fun _ _ => none) 1 2 (-200)
    ⟨"https", "example.test"⟩
    CertificateRequestResultType.CERTIFICATE_REQUEST_RESULT_TYPE_CONTINUE rfl⟩

/-- Claim C3: non-Android `CanCreateWindow` always stores `false` in
`*no_javascript_access`; it returns `true` when no application owns the render
process, and otherwise returns exactly `app.CanRequestURL(target_url)`. -/
theorem canCreateWindow_policy
    (lookup : Int → Option Application)
    (opener_url otl_url source_origin target_url : GURL)
    (container_type referrer disposition features context opener_id : Int)
    (user_gesture opener_suppressed is_guest : Bool)
    (render_process_id : Int) :
    (XWalkContentBrowserClient.CanCreateWindow lookup opener_url otl_url
        source_origin container_type target_url referrer disposition features
        user_gesture opener_suppressed context render_process_id is_guest
        opener_id).no_javascript_access = false ∧
    (lookup render_process_id = none →
      (XWalkContentBrowserClient.CanCreateWindow lookup opener_url otl_url
        source_origin container_type target_url referrer disposition features
        user_gesture opener_suppressed context render_process_id is_guest
        opener_id).allowed = true) ∧
    (∀ app, lookup render_process_id = some app →
      (XWalkContentBrowserClient.CanCreateWindow lookup opener_url otl_url
        source_origin container_type target_url referrer disposition features
        user_gesture opener_suppressed context render_process_id is_guest
        opener_id).allowed = app.canRequestURL target_url) := by
  refine ⟨?_, ?_, ?_⟩
  · cases h : lookup render_process_id
    · simp [XWalkContentBrowserClient.CanCreateWindow, h]
    · simp only [XWalkContentBrowserClient.CanCreateWindow, h]
      split <;> rfl
  · intro h
    simp [XWalkContentBrowserClient.CanCreateWindow, h]
  · intro app h
    cases hc : app.canRequestURL target_url <;>
      simp [XWalkContentBrowserClient.CanCreateWindow, h, hc]

/-- Witness for claim C3 at concrete inputs: a registry mapping render process
7 to an application that only accepts scheme "https", probed on an allowed
URL, plus the no-application case. -/
theorem canCreateWindow_policy_witness :
    (XWalkContentBrowserClient.CanCreateWindow
        (fun n => if n == 7 then some ⟨fun u => u.scheme == "https"⟩ else none)
        ⟨"https", "o.test"⟩ ⟨"https", "o.test"⟩ ⟨"https", "o.test"⟩ 0
        ⟨"https", "t.test"⟩ 0 0 0 true false 0 7 false 0).no_javascript_access
      = false ∧
    (XWalkContentBrowserClient.CanCreateWindow
        (fun n => if n == 7 then some ⟨fun u => u.scheme == "https"⟩ else none)
        ⟨"https", "o.test"⟩ ⟨"https", "o.test"⟩ ⟨"https", "o.test"⟩ 0
        ⟨"https", "t.test"⟩ 0 0 0 true false 0 9 false 0).allowed = true :=
  ⟨(canCreateWindow_policy
      (fun n => if n == 7 then some ⟨fun u => u.scheme == "https"⟩ else none)
      ⟨"https", "o.test"⟩ ⟨"https", "o.test"⟩ ⟨"https", "o.test"⟩
      ⟨"https", "t.test"⟩ 0 0 0 0 0 0 true false false 7).1,
   (canCreateWindow_policy
      (fun n => if n == 7 then some ⟨fun u => u.scheme == "https"⟩ else none)
      ⟨"https", "o.test"⟩ ⟨"https", "o.test"⟩ ⟨"https", "o.test"⟩
      ⟨"https", "t.test"⟩ 0 0 0 0 0 0 true false false 9).2.1 rfl⟩

/-- Claim C4: on non-Android platforms both cookie hooks return `true` for
every URL, first-party URL, cookie list / cookie line, resource context,
render process id, render frame id (and cookie options), whatever the Android
cookie policy would have said. -/
theorem cookie_access_always_allowed_non_android
    (getPolicy : GURL → GURL → List String → Int → Int → Int → Bool)
    (setPolicy : GURL → GURL → String → Int → Int → Int → Int → Bool)
    (url first_party : GURL) (cookie_list : List String) (cookie_line : String)
    (context render_process_id render_frame_id options : Int) :
    XWalkContentBrowserClient.AllowGetCookie false getPolicy url first_party
        cookie_list context render_process_id render_frame_id = true ∧
    XWalkContentBrowserClient.AllowSetCookie false setPolicy url first_party
        cookie_line context render_process_id render_frame_id options = true :=
  ⟨rfl, rfl⟩

/-- Claim C5: `CheckDesktopNotificationPermission` returns `PermissionAllowed`
on Android and `PermissionNotAllowed` elsewhere, and on either platform the
result does not depend on the source URL, resource context or render process
id. -/
theorem checkDesktopNotificationPermission_platform_constant
    (source_url source_url' : GURL) (context context' : Int)
    (render_process_id render_process_id' : Int) :
    XWalkContentBrowserClient.CheckDesktopNotificationPermission true
        source_url context render_process_id =
      WebNotificationPermission.PermissionAllowed ∧
    XWalkContentBrowserClient.CheckDesktopNotificationPermission false
        source_url context render_process_id =
      WebNotificationPermission.PermissionNotAllowed ∧
    (∀ os_android : Bool,
      XWalkContentBrowserClient.CheckDesktopNotificationPermission os_android
          source_url context render_process_id =
        XWalkContentBrowserClient.CheckDesktopNotificationPermission os_android
          source_url' context' render_process_id') :=
  ⟨rfl, rfl, fun os_android => by cases os_android <;> rfl⟩

/-- Claim C6: `GetStoragePartitionConfigForSite` always outputs
`*in_memory = false` and an empty `*partition_name`, and `*partition_domain`
is the site's host exactly when the build is non-Android and the site's scheme
is the application scheme, and empty otherwise (in particular always empty on
Android). -/
theorem getStoragePartitionConfigForSite_outputs
    (os_android : Bool) (browser_context : Int) (site : GURL)
    (can_be_default : Bool) :
    (XWalkContentBrowserClient.GetStoragePartitionConfigForSite os_android
        browser_context site can_be_default).in_memory = false ∧
    (XWalkContentBrowserClient.GetStoragePartitionConfigForSite os_android
        browser_context site can_be_default).partition_name = "" ∧
    (XWalkContentBrowserClient.GetStoragePartitionConfigForSite os_android
        browser_context site can_be_default).partition_domain =
      (if !os_android && site.SchemeIs application.kApplicationScheme then
        site.host
      else "") := by
  refine ⟨?_, ?_, ?_⟩ <;>
    · unfold XWalkContentBrowserClient.GetStoragePartitionConfigForSite
      split <;> rfl

/-- Claim C7: `ExtensionEchoInternal.handleSyncMessage` returns exactly
`"From java sync:"` concatenated with the message, independently of the
instance id. -/
theorem echo_handleSyncMessage_spec (instanceID instanceID' : Int) (message : String) :
    ExtensionEchoInternal.handleSyncMessage instanceID message =
      "From java sync:" ++ message ∧
    ExtensionEchoInternal.handleSyncMessage instanceID message =
      ExtensionEchoInternal.handleSyncMessage instanceID' message :=
  ⟨rfl, rfl⟩

/-- Claim C8: `ExtensionEchoInternal.handleMessage` performs exactly one
`postMessage`, addressed to the sending instance id, whose content is
`"From java:"` concatenated with the message. -/
theorem echo_handleMessage_spec (instanceID : Int) (message : String) :
    ExtensionEchoInternal.handleMessage instanceID message =
      [ExtensionAction.postMessage instanceID ("From java:" ++ message)] :=
  rfl

/-- Claim C9: `ExtensionBroadcastInternal.handleMessage` performs exactly one
`broadcastMessage` whose content is `"From java broadcast:"` concatenated with
the message, independently of the sending instance id. -/
theorem broadcast_handleMessage_spec (instanceID instanceID' : Int) (message : String) :
    ExtensionBroadcastInternal.handleMessage instanceID message =
      [ExtensionAction.broadcastMessage ("From java broadcast:" ++ message)] ∧
    ExtensionBroadcastInternal.handleMessage instanceID message =
      ExtensionBroadcastInternal.handleMessage instanceID' message :=
  ⟨rfl, rfl⟩

/-- Claim C10: along every execution of the constructor/destructor protocol
from process start, at most one `XWalkContentBrowserClient` instance exists,
and `Get()` returns it while it exists and null otherwise. -/
theorem browser_client_singleton_invariant (w : BrowserClientWorld)
    (h : BrowserClientReachable w) : singletonInvariant w := by
  induction h with
  | init => exact Or.inl ⟨rfl, rfl⟩
  | step hr hs ih =>
    cases hs with
    | construct id hdcheck =>
      rcases ih with ⟨hl, _⟩ | ⟨i, _, hg⟩
      · exact Or.inr ⟨id, by rw [hl], rfl⟩
      · simp only [XWalkContentBrowserClient.Get, hdcheck] at hg
        cases hg
    | destroy id hlive hdcheck =>
      rcases ih with ⟨_, hg⟩ | ⟨i, hl, _⟩
      · simp only [XWalkContentBrowserClient.Get] at hg
        exact absurd hg hdcheck
      · refine Or.inl ⟨?_, rfl⟩
        simp only
        rw [hl] at hlive ⊢
        rw [List.mem_singleton] at hlive
        rw [hlive, List.erase_cons_head]

/-- Witness for claim C10 at a concrete reachable state: after one
construction of instance 5, the invariant holds of the resulting world. -/
theorem browser_client_singleton_invariant_witness :
    singletonInvariant ⟨[5], some 5⟩ :=
  browser_client_singleton_invariant ⟨[5], some 5⟩
    (BrowserClientReachable.step BrowserClientReachable.init
      (BrowserClientStep.construct ⟨[], none⟩ 5 rfl))

end Crosswalk
